import Mathlib

/-!
Verification of the netdiff `BaseParser` core (src/netdiff/parsers/base.py)
against its natural-language specification.

The Python code is shallowly embedded: JSON values become an inductive type,
`json.loads` becomes a fuel-based recursive-descent parser, `json.dumps`
becomes a recursive encoder, network and filesystem effects are supplied by
an explicit oracle environment, and exceptions become an error type returned
through `Except`.  The spec's error names map onto the code's imported
exception names as follows: `ParserFormatError` is the code's
`ParserJsonError` and `SchemaValidationError` is the code's `NetJsonError`.
-/

namespace Netdiff

/-- Python/JSON values.  `obj` keeps its fields as an association list, which
models both a plain `dict` (whose CPython iteration order is insertion order)
and the `OrderedDict` used by the serializer.  `num` stores the numeric
lexeme, avoiding any commitment to float semantics. -/
inductive Json where
  | null : Json
  | bool (b : Bool) : Json
  | num (lexeme : String) : Json
  | str (s : String) : Json
  | arr (items : List Json) : Json
  | obj (fields : List (String × Json)) : Json

/-- True when `pat` occurs at the head of `cs` (list version of startswith). -/
def startsWithList : List Char → List Char → Bool
  | _, [] => true
  | [], _ :: _ => false
  | c :: cs, p :: ps => c = p && startsWithList cs ps

/-- Models Python's substring test `pat in s` (used for the check
`'://' in data` in `BaseParser.to_python`). -/
def containsSub (s pat : String) : Bool :=
  go s.toList pat.toList
where
  go : List Char → List Char → Bool
    | [], pat => startsWithList [] pat
    | c :: cs, pat => startsWithList (c :: cs) pat || go cs pat

/-- Valid first character of a URL scheme per CPython's urlparse. -/
def schemeStartChar (c : Char) : Bool := c.isAlpha

/-- Valid subsequent character of a URL scheme per CPython's urlparse. -/
def schemeChar (c : Char) : Bool :=
  c.isAlpha || c.isDigit || c = '+' || c = '-' || c = '.'

/-- Models `urlparse(s).scheme`: the text before the first `:` is the scheme
when it is non-empty, starts with a letter and contains only scheme
characters; CPython lowercases it.  Otherwise the scheme is empty. -/
def urlscheme (s : String) : String :=
  match splitAtColon s.toList [] with
  | none => ""
  | some pre =>
    match pre with
    | [] => ""
    | c :: cs =>
      if schemeStartChar c && cs.all schemeChar then
        String.mk ((c :: cs).map Char.toLower)
      else ""
where
  /-- Returns the (reversed-then-fixed) characters before the first `:`,
  or `none` when there is no colon. -/
  splitAtColon : List Char → List Char → Option (List Char)
    | [], _ => none
    | c :: cs, acc => if c = ':' then some acc.reverse else splitAtColon cs (c :: acc)

/-- Skip JSON whitespace. -/
def skipWs : List Char → List Char
  | c :: cs => if c = ' ' || c = '\t' || c = '\n' || c = '\r' then skipWs cs else c :: cs
  | [] => []

/-- Value of a hexadecimal digit, if the character is one (decimal digits,
then the lowercase and the uppercase letter ranges, by code point). -/
def hexDigitValue (c : Char) : Option Nat :=
  let n := c.toNat
  if 48 ≤ n ∧ n ≤ 57 then some (n - 48)
  else if 97 ≤ n ∧ n ≤ 102 then some (n - 87)
  else if 65 ≤ n ∧ n ≤ 70 then some (n - 55)
  else none

/-- Parse the tail of a JSON string literal (the opening quote already
consumed), returning its unescaped content and the rest of the input. -/
def parseStringBody : List Char → Option (List Char × List Char)
  | [] => none
  | c :: cs =>
    if c = '"' then some ([], cs)
    else if c = '\\' then
      match cs with
      | [] => none
      | e :: cs' =>
        let simpleEsc : Option Char :=
          if e = '"' then some '"'
          else if e = '\\' then some '\\'
          else if e = '/' then some '/'
          else if e = 'b' then some (Char.ofNat 8)
          else if e = 'f' then some (Char.ofNat 12)
          else if e = 'n' then some '\n'
          else if e = 'r' then some '\r'
          else if e = 't' then some '\t'
          else none
        match simpleEsc with
        | some d =>
          match parseStringBody cs' with
          | some (body, rest) => some (d :: body, rest)
          | none => none
        | none =>
          if e = 'u' then
            match cs' with
            | h1 :: h2 :: h3 :: h4 :: cs'' =>
              match hexDigitValue h1, hexDigitValue h2,
                    hexDigitValue h3, hexDigitValue h4 with
              | some v1, some v2, some v3, some v4 =>
                let code := ((v1 * 16 + v2) * 16 + v3) * 16 + v4
                match parseStringBody cs'' with
                | some (body, rest) => some (Char.ofNat code :: body, rest)
                | none => none
              | _, _, _, _ => none
            | _ => none
          else none
    else if c.toNat < 32 then none
    else
      match parseStringBody cs with
      | some (body, rest) => some (c :: body, rest)
      | none => none
termination_by cs => cs.length
decreasing_by all_goals simp_all <;> omega

/-- Split off the longest run of leading decimal digits. -/
def digitSpan (cs : List Char) : List Char × List Char :=
  match cs with
  | [] => ([], [])
  | c :: rest =>
    match c.isDigit, digitSpan rest with
    | true, (ds, leftover) => (c :: ds, leftover)
    | false, _ => ([], c :: rest)

/-- Parse a JSON number lexeme (sign, integer part, optional fraction,
optional exponent), returning the lexeme and the rest of the input. -/
def parseNumber (cs : List Char) : Option (List Char × List Char) :=
  let (sign, cs1) :=
    match cs with
    | '-' :: rest => ([('-' : Char)], rest)
    | _ => ([], cs)
  let (intPart, cs2) := digitSpan cs1
  if intPart = [] then none
  else
    let (fracPart, cs3) :=
      match cs2 with
      | '.' :: rest =>
        let (ds, r) := digitSpan rest
        if ds = [] then ([], cs2) else ([('.' : Char)] ++ ds, r)
      | _ => ([], cs2)
    if fracPart = [] && (match cs2 with | '.' :: _ => true | _ => false) then none
    else
      let (expPart, cs4) :=
        match cs3 with
        | e :: rest =>
          if e = 'e' || e = 'E' then
            let (sgn, rest2) :=
              match rest with
              | s :: r => if s = '+' || s = '-' then ([s], r) else ([], rest)
              | [] => ([], rest)
            let (ds, r) := digitSpan rest2
            if ds = [] then ([], cs3) else ([e] ++ sgn ++ ds, r)
          else ([], cs3)
        | [] => ([], cs3)
      if expPart = [] && (match cs3 with
                          | e :: _ => e = 'e' || e = 'E'
                          | [] => false) then none
      else some (sign ++ intPart ++ fracPart ++ expPart, cs4)

mutual

/-- Parse one JSON value.  `fuel` bounds the recursion depth; `jsonParse`
supplies enough fuel for any input of the given length. -/
def parseValue (fuel : Nat) (cs : List Char) : Option (Json × List Char) :=
  match fuel with
  | 0 => none
  | fuel + 1 =>
    match skipWs cs with
    | [] => none
    | c :: rest =>
      if c = '"' then
        match parseStringBody rest with
        | some (body, rest') => some (.str (String.mk body), rest')
        | none => none
      else if c = '{' then parseMembersStart fuel rest
      else if c = '[' then parseItemsStart fuel rest
      else if startsWithList (c :: rest) ("true".toList) then
        some (.bool true, (c :: rest).drop 4)
      else if startsWithList (c :: rest) ("false".toList) then
        some (.bool false, (c :: rest).drop 5)
      else if startsWithList (c :: rest) ("null".toList) then
        some (.null, (c :: rest).drop 4)
      else
        match parseNumber (c :: rest) with
        | some (lexeme, rest') => some (.num (String.mk lexeme), rest')
        | none => none

/-- Parse the members of an object, the `\x7b` already consumed. -/
def parseMembersStart (fuel : Nat) (cs : List Char) : Option (Json × List Char) :=
  match fuel with
  | 0 => none
  | fuel + 1 =>
    match skipWs cs with
    | '}' :: rest => some (.obj [], rest)
    | other => parseMembers fuel other []

/-- Parse `"key": value` pairs separated by commas, ending at `\x7d`. -/
def parseMembers (fuel : Nat) (cs : List Char) (acc : List (String × Json)) :
    Option (Json × List Char) :=
  match fuel with
  | 0 => none
  | fuel + 1 =>
    match skipWs cs with
    | '"' :: rest =>
      match parseStringBody rest with
      | some (key, rest1) =>
        match skipWs rest1 with
        | ':' :: rest2 =>
          match parseValue fuel rest2 with
          | some (v, rest3) =>
            let acc' := acc ++ [(String.mk key, v)]
            match skipWs rest3 with
            | ',' :: rest4 => parseMembers fuel rest4 acc'
            | '}' :: rest4 => some (.obj acc', rest4)
            | _ => none
          | none => none
        | _ => none
      | none => none
    | _ => none

/-- Parse the items of an array, the `[` already consumed. -/
def parseItemsStart (fuel : Nat) (cs : List Char) : Option (Json × List Char) :=
  match fuel with
  | 0 => none
  | fuel + 1 =>
    match skipWs cs with
    | ']' :: rest => some (.arr [], rest)
    | other => parseItems fuel other []

/-- Parse comma-separated values ending at `]`. -/
def parseItems (fuel : Nat) (cs : List Char) (acc : List Json) :
    Option (Json × List Char) :=
  match fuel with
  | 0 => none
  | fuel + 1 =>
    match parseValue fuel cs with
    | some (v, rest) =>
      let acc' := acc ++ [v]
      match skipWs rest with
      | ',' :: rest' => parseItems fuel rest' acc'
      | ']' :: rest' => some (.arr acc', rest')
      | _ => none
    | none => none

end

/-- Models Python's `json.loads` on a string: parse one JSON document and
require that only whitespace remains; `none` models a raised `ValueError`. -/
def jsonParse (s : String) : Option Json :=
  match parseValue (s.length + 1) s.toList with
  | some (j, rest) => if skipWs rest = [] then some j else none
  | none => none

/-- Render one character of a JSON string as `json.dumps` does with its
default `ensure_ascii=True`: escape the quote, the backslash, the short
control escapes, and everything outside printable ASCII as `\uXXXX`. -/
def dumpChar (c : Char) : String :=
  if c = '"' then "\\\""
  else if c = '\\' then "\\\\"
  else if c = '\n' then "\\n"
  else if c = '\r' then "\\r"
  else if c = '\t' then "\\t"
  else if c = Char.ofNat 8 then "\\b"
  else if c = Char.ofNat 12 then "\\f"
  else if 32 ≤ c.toNat && c.toNat < 127 then String.mk [c]
  else
    let hexDigit (n : Nat) : Char :=
      if n < 10 then Char.ofNat ('0'.toNat + n) else Char.ofNat ('a'.toNat + n - 10)
    let n := c.toNat
    String.mk ['\\', 'u', hexDigit (n / 4096 % 16), hexDigit (n / 256 % 16),
               hexDigit (n / 16 % 16), hexDigit (n % 16)]

/-- A JSON string literal as `json.dumps` emits it. -/
def dumpString (s : String) : String :=
  "\"" ++ String.join (s.toList.map dumpChar) ++ "\""

mutual

/-- Models `json.dumps` with its default separators `, ` and `: `. -/
def dumps : Json → String
  | .null => "null"
  | .bool true => "true"
  | .bool false => "false"
  | .num lexeme => lexeme
  | .str s => dumpString s
  | .arr items => "[" ++ String.intercalate ", " (dumpsItems items) ++ "]"
  | .obj fields =>
    "\x7b" ++ String.intercalate ", " (dumpsFields fields) ++ "\x7d"

/-- The rendered elements of a JSON array. -/
def dumpsItems : List Json → List String
  | [] => []
  | j :: rest => dumps j :: dumpsItems rest

/-- The rendered `"key": value` pairs of a JSON object. -/
def dumpsFields : List (String × Json) → List String
  | [] => []
  | (k, v) :: rest => (dumpString k ++ ": " ++ dumps v) :: dumpsFields rest

end

/-- The exceptions that `BaseParser` can raise, plus `TypeError` for the
uncaught runtime error `json.loads(None)` produces (the `except ValueError`
handler in `to_python` does not catch a `TypeError`).  The spec calls
`ParserJsonError` by the name `ParserFormatError` and `NetJsonError` by the
name `SchemaValidationError`. -/
inductive PyErr where
  | ParserError : PyErr
  | ParserJsonError : PyErr
  | NetJsonError (msg : String) : PyErr
  | TopologyRetrievalError : PyErr
  | TypeError : PyErr
deriving DecidableEq

/-- The value an input data reference can have, split exactly as
`to_python` tests it: a `dict`, a string, or one of the other types the
final `else` branch rejects (an `int` or a `list` among them). -/
inductive PyObj where
  | dict (fields : List (String × Json)) : PyObj
  | str (s : String) : PyObj
  | int (n : Int) : PyObj
  | list (items : List Json) : PyObj

/-- The result of `requests.get`: either a raised exception (with its text)
or a response carrying a status code and a decoded body. -/
structure HttpResponse where
  status_code : Nat
  content : String

/-- Oracles for the outside world.  `http` is the outcome of
`requests.get(url, verify=..., timeout=...)` keyed by the URL, the timeout
and the verify flag; `telnet` is keyed by the URL and the timeout and, on a
successful connection, yields the text `read_all` returns after the
line-terminator write; `file` is the outcome of `open(path).read()`. -/
structure Env where
  http : String → Option Nat → Bool → Except String HttpResponse
  telnet : String → Option Nat → Except String String
  file : String → Except String String

/-- The per-instance attributes `__init__` leaves on the parser. -/
structure ParserConfig where
  protocol : Option String
  version : Option String
  revision : Option String
  metric : Option String
  timeout : Option Nat
  verify : Bool

/-- The class-level defaults of a parser subclass (all `None` on
`BaseParser` itself). -/
structure ParserDefaults where
  protocol : Option String
  version : Option String
  revision : Option String
  metric : Option String

/-- Python truthiness of an optional-string argument: `None` and the empty
string are falsy, every other string is truthy. -/
def truthy : Option String → Bool
  | none => false
  | some s => s ≠ ""

/-- Models the attribute-setting part of `BaseParser.__init__` (lines
40-47): each of `version`, `revision`, `metric` overwrites the class-level
default only when the supplied value is truthy; `timeout` and `verify` are
stored unconditionally. -/
def initConfig (defaults : ParserDefaults) (version revision metric : Option String)
    (timeout : Option Nat) (verify : Bool) : ParserConfig :=
  { protocol := defaults.protocol
    version := if truthy version then version else defaults.version
    revision := if truthy revision then revision else defaults.revision
    metric := if truthy metric then metric else defaults.metric
    timeout := timeout
    verify := verify }

/-- Models `BaseParser._get_file`: any exception from `open(path).read()`
becomes a `TopologyRetrievalError`. -/
def get_file (env : Env) (path : String) : Except PyErr String :=
  match env.file path with
  | .error _ => .error .TopologyRetrievalError
  | .ok text => .ok text

/-- Models `BaseParser._get_http`: `requests.get` with the configured
`verify` and `timeout`; a raised exception becomes `TopologyRetrievalError`,
a non-200 status raises `TopologyRetrievalError`, and otherwise the decoded
response body is returned. -/
def get_http (cfg : ParserConfig) (env : Env) (url : String) : Except PyErr String :=
  match env.http url cfg.timeout cfg.verify with
  | .error _ => .error .TopologyRetrievalError
  | .ok response =>
    if response.status_code ≠ 200 then .error .TopologyRetrievalError
    else .ok response.content

/-- Models `BaseParser._get_telnet`: a failed connection becomes
`TopologyRetrievalError`; on success the line terminator is written and
`read_all` is bound to a local variable, but the Python function body has no
`return` statement, so it returns `None` (here `Option.none`) and the data
that was read is discarded. -/
def get_telnet (cfg : ParserConfig) (env : Env) (url : String) :
    Except PyErr (Option String) :=
  match env.telnet url cfg.timeout with
  | .error _ => .error .TopologyRetrievalError
  | .ok readData =>
    let _data := readData
    .ok none

/-- Does the string look like a filesystem path?  The exact prefix tests of
`to_python` lines 77-83; the last one models `data[1:3].startswith(':\\')`. -/
def isPathLike (s : String) : Bool :=
  startsWithList s.toList ("./".toList) ||
  startsWithList s.toList ("../".toList) ||
  startsWithList s.toList ("/".toList) ||
  startsWithList s.toList (".\\".toList) ||
  startsWithList s.toList ("..\\".toList) ||
  startsWithList s.toList ("\\".toList) ||
  startsWithList ((s.toList.drop 1).take 2) (":\\".toList)

/-- The URL/path resolution step of `to_python` on a string input: when the
string contains `://` it is parsed as a URL and the two scheme tests run in
sequence (http/https fetch, then telnet fetch, the latter leaving `None` in
`data`); otherwise a path-looking string is read from disk; any other string
is kept as-is.  The result is the value the local variable `data` holds when
control reaches `json.loads(data)`. -/
def resolveStr (cfg : ParserConfig) (env : Env) (s : String) :
    Except PyErr (Option String) :=
  if containsSub s "://" then
    let scheme := urlscheme s
    let afterHttp : Except PyErr (Option String) :=
      if scheme = "http" || scheme = "https" then
        match get_http cfg env s with
        | .error e => .error e
        | .ok body => .ok (some body)
      else .ok (some s)
    match afterHttp with
    | .error e => .error e
    | .ok d =>
      if scheme = "telnet" then get_telnet cfg env s
      else .ok d
  else if isPathLike s then
    match get_file env s with
    | .error e => .error e
    | .ok text => .ok (some text)
  else .ok (some s)

/-- `json.loads` applied to the resolved value: on a string, a parse failure
is the `ValueError` that `to_python` converts to `ParserJsonError`; on
`None` (the telnet branch), `json.loads` raises a `TypeError` that the
`except ValueError` handler does not catch. -/
def loadsResolved : Option String → Except PyErr Json
  | none => .error .TypeError
  | some s =>
    match jsonParse s with
    | some j => .ok j
    | none => .error .ParserJsonError

/-- Models `BaseParser.to_python`: a `dict` is returned as-is; a string is
resolved (URL fetch or file read) and then JSON-decoded; any other type
raises `ParserError` before any fetch or decode is attempted. -/
def to_python (cfg : ParserConfig) (env : Env) (data : PyObj) : Except PyErr Json :=
  match data with
  | .dict fields => .ok (.obj fields)
  | .str s =>
    match resolveStr cfg env s with
    | .error e => .error e
    | .ok d => loadsResolved d
  | .int _ => .error .ParserError
  | .list _ => .error .ParserError

/-- Models `BaseParser.__init__` end to end: set the attributes, then
resolve the data reference with `to_python`, returning the configured
instance together with its `original_data`. -/
def initParser (defaults : ParserDefaults) (env : Env) (data : PyObj)
    (version revision metric : Option String) (timeout : Option Nat)
    (verify : Bool) : Except PyErr (ParserConfig × Json) :=
  let cfg := initConfig defaults version revision metric timeout verify
  match to_python cfg env data with
  | .error e => .error e
  | .ok original_data => .ok (cfg, original_data)

/-- The NetworkX graph a concrete parser's `parse` builds: node identifier
strings in iteration order, and edges as `(source, target, weight)` triples
in iteration order (the `weight` entry of each edge's data dict). -/
structure Graph where
  nodes : List String
  edges : List (String × String × Int)

/-- The two forms `BaseParser.json` can return: the `OrderedDict` document or
its `json.dumps` text. -/
inductive JsonOut where
  | dict (d : Json) : JsonOut
  | text (s : String) : JsonOut

/-- The JSON value of an optional string attribute (`None` becomes `null`). -/
def optStr : Option String → Json
  | none => .null
  | some s => .str s

/-- Models `BaseParser.json` (given the graph `parse` built): the NetJSON
formatting check rejects a `None` protocol, a `None` version, and a `None`
metric unless the protocol is `static`; then the node and link lists are
prepared and the document is assembled as an `OrderedDict` in the fixed field
order; with `dict=True` the document itself is returned, otherwise its
`json.dumps` rendering. -/
def BaseParser.json (cfg : ParserConfig) (graph : Graph) (asDict : Bool) :
    Except PyErr JsonOut :=
  if cfg.protocol = none then .error (.NetJsonError "protocol cannot be None")
  else if cfg.version = none then .error (.NetJsonError "version cannot be None")
  else if cfg.metric = none && cfg.protocol ≠ some "static" then
    .error (.NetJsonError "metric cannot be None")
  else
    let nodes : List Json := graph.nodes.map (fun node => .obj [("id", .str node)])
    let links : List Json := graph.edges.map (fun link =>
      .obj [("source", .str link.1),
            ("target", .str link.2.1),
            ("weight", .num (toString link.2.2))])
    let data : Json := .obj
      [("type", .str "NetworkGraph"),
       ("protocol", optStr cfg.protocol),
       ("version", optStr cfg.version),
       ("revision", optStr cfg.revision),
       ("metric", optStr cfg.metric),
       ("nodes", .arr nodes),
       ("links", .arr links)]
    if asDict then .ok (.dict data)
    else .ok (.text (dumps data))

/-- The delta between two graphs: added/removed node and link sets. -/
structure DiffResult where
  addedNodes : List String
  removedNodes : List String
  addedLinks : List (String × String × Int)
  removedLinks : List (String × String × Int)

/-- The weight of the link with the given ordered endpoint pair, if any. -/
def lookupEdge (edges : List (String × String × Int)) (s t : String) : Option Int :=
  match edges with
  | [] => none
  | e :: rest => if e.1 = s && e.2.1 = t then some e.2.2 else lookupEdge rest s t

/-- Modelled from the spec: the diff helper `netdiff.utils.diff` that
`BaseParser.__sub__` calls is not under src/.  Spec section 4.4 defines the
delta: added nodes are those of `new` absent from `old` and removed nodes
the reverse; a link of `new` is added when its `(source, target)` pair is
absent from `old` or present with a different weight, and a link of `old` is
removed under the mirrored condition; a link with the same pair and weight
in both graphs appears in neither set. -/
def diff (old new_ : Graph) : DiffResult :=
  { addedNodes := new_.nodes.filter (fun n => ¬ old.nodes.contains n)
    removedNodes := old.nodes.filter (fun n => ¬ new_.nodes.contains n)
    addedLinks := new_.edges.filter (fun e => lookupEdge old.edges e.1 e.2.1 ≠ some e.2.2)
    removedLinks := old.edges.filter (fun e => lookupEdge new_.edges e.1 e.2.1 ≠ some e.2.2) }

/-- Models `BaseParser.__sub__`: `self - other` is `diff(other, self)`, the
delta from `other` (the old snapshot) to `self` (the new one). -/
def BaseParser.sub (self other : Graph) : DiffResult :=
  diff other self

/-- A Canonical Topology Graph is well-formed when it has at most one link
per ordered endpoint pair (spec section 3's default multi-edge rule). -/
def Graph.uniquePairs (g : Graph) : Prop :=
  g.edges.Pairwise (fun e f => (e.1, e.2.1) ≠ (f.1, f.2.1))

/-! Concrete fixtures used by witnesses. -/

/-- A small concrete graph. -/
def g0 : Graph := ⟨["A", "B"], [("A", "B", 5)]⟩

/-- An OLSR-style configuration with all metadata present. -/
def cfgOlsr : ParserConfig := ⟨some "olsr", some "0.6.6", none, some "etx", none, true⟩

/-- An OLSR-style configuration with no metric. -/
def cfgOlsrNoMetric : ParserConfig := ⟨some "olsr", some "0.6.6", none, none, none, true⟩

/-- A static-protocol configuration with no metric. -/
def cfgStaticNoMetric : ParserConfig := ⟨some "static", some "1", none, none, none, true⟩

/-- An environment in which every external operation fails. -/
def envIdle : Env :=
  ⟨fun _ _ _ => .error "unreachable", fun _ _ => .error "unreachable",
   fun _ => .error "unreachable"⟩

/-- An environment whose HTTP oracle always answers with status 404. -/
def env404 : Env :=
  ⟨fun _ _ _ => .ok ⟨404, "not found"⟩, fun _ _ => .error "x", fun _ => .error "x"⟩

/-- An environment whose telnet oracle always connects and serves a valid
JSON document. -/
def envTelnetOk : Env :=
  ⟨fun _ _ _ => .error "x", fun _ _ => .ok "\x7b\"nodes\": []\x7d", fun _ => .error "x"⟩

/-- Claim C6: a data reference that is neither a dict nor a string (an
integer or a list, for instance) is rejected with `ParserError`, and since
the result is the same for every environment, no fetch or decode is
attempted. -/
theorem C6_unrecognized_reference (cfg : ParserConfig) (env : Env) (n : Int)
    (items : List Json) :
    to_python cfg env (.int n) = .error .ParserError ∧
    to_python cfg env (.list items) = .error .ParserError :=
  ⟨rfl, rfl⟩

/-- Claim C3 (failing input): on a telnet-scheme reference whose connection
succeeds, `_get_telnet` binds the data `read_all` returned but falls off the
end of the function, returning `None` whatever was read; `json.loads(None)`
then raises an uncaught `TypeError`, so the decoded text is never returned.
The claim (and spec section 4.1) says the decoded data is returned and
JSON-decoded. -/
theorem C3_telnet_discards_data (cfg : ParserConfig) (env : Env) (s : String)
    (h1 : containsSub s "://" = true) (h2 : urlscheme s = "telnet")
    (d : String) (h3 : env.telnet s cfg.timeout = .ok d) :
    get_telnet cfg env s = .ok none ∧
    to_python cfg env (.str s) = .error .TypeError := by
  have htel : get_telnet cfg env s = .ok none := by
    simp [get_telnet, h3]
  refine ⟨htel, ?_⟩
  simp [to_python, resolveStr, h1, h2, htel, loadsResolved]

/-- Claim C3 witness: the concrete telnet reference, with a connection that
succeeds and serves valid JSON, still ends in the uncaught `TypeError`. -/
theorem C3_telnet_discards_data_witness :
    get_telnet cfgOlsr envTelnetOk "telnet://localhost:9090" = .ok none ∧
    to_python cfgOlsr envTelnetOk (.str "telnet://localhost:9090") =
      .error .TypeError :=
  C3_telnet_discards_data cfgOlsr envTelnetOk "telnet://localhost:9090"
    (by decide) (by decide) "\x7b\"nodes\": []\x7d" rfl

/-- Claim C4: when a string reference resolves to text that is not valid
JSON, `to_python` fails with `ParserJsonError` (the spec's
`ParserFormatError`), an error distinct from `TopologyRetrievalError`. -/
theorem C4_malformed_json (cfg : ParserConfig) (env : Env) (s t : String)
    (h1 : resolveStr cfg env s = .ok (some t)) (h2 : jsonParse t = none) :
    to_python cfg env (.str s) = .error .ParserJsonError ∧
    PyErr.ParserJsonError ≠ PyErr.TopologyRetrievalError := by
  refine ⟨?_, by decide⟩
  simp [to_python, h1, loadsResolved, h2]

/-- Claim C4 witness: the string `\x7bnot valid` is kept as-is by the
resolver (it is neither a URL nor a path) and fails JSON decoding. -/
theorem C4_malformed_json_witness :
    to_python cfgOlsr envIdle (.str "\x7bnot valid") = .error .ParserJsonError ∧
    PyErr.ParserJsonError ≠ PyErr.TopologyRetrievalError :=
  C4_malformed_json cfgOlsr envIdle "\x7bnot valid" "\x7bnot valid" rfl rfl

/-- Claim C10: a URL-looking string whose scheme is none of http, https or
telnet triggers no fetch — the resolver keeps the original string for every
environment — so the string itself is JSON-decoded and the reference fails
with `ParserJsonError` unless the full URL string happens to be valid
JSON. -/
theorem C10_unknown_scheme (cfg : ParserConfig) (env : Env) (s : String)
    (h1 : containsSub s "://" = true) (h2 : urlscheme s ≠ "http")
    (h3 : urlscheme s ≠ "https") (h4 : urlscheme s ≠ "telnet") :
    resolveStr cfg env s = .ok (some s) ∧
    (jsonParse s = none → to_python cfg env (.str s) = .error .ParserJsonError) ∧
    (∀ j, jsonParse s = some j → to_python cfg env (.str s) = .ok j) := by
  have hres : resolveStr cfg env s = .ok (some s) := by
    simp [resolveStr, h1, h2, h3, h4]
  refine ⟨hres, ?_, ?_⟩
  · intro hj
    simp [to_python, hres, loadsResolved, hj]
  · intro j hj
    simp [to_python, hres, loadsResolved, hj]

/-- Claim C10 witness: `ftp://host/x` is fetched from no environment and is
itself invalid JSON, so it fails with `ParserJsonError`. -/
theorem C10_unknown_scheme_witness :
    resolveStr cfgOlsr envIdle "ftp://host/x" = .ok (some "ftp://host/x") ∧
    to_python cfgOlsr envIdle (.str "ftp://host/x") = .error .ParserJsonError :=
  ⟨(C10_unknown_scheme cfgOlsr envIdle "ftp://host/x" (by decide) (by decide)
      (by decide) (by decide)).1,
   (C10_unknown_scheme cfgOlsr envIdle "ftp://host/x" (by decide) (by decide)
      (by decide) (by decide)).2.1 rfl⟩

/-- Claim C5: an http/https reference is fetched with `requests.get` at the
configured timeout and verify flag; a raised request exception and a non-200
status both become `TopologyRetrievalError`, while a 200 response yields the
decoded body. -/
theorem C5_http_fetch (cfg : ParserConfig) (env : Env) (s : String)
    (h1 : containsSub s "://" = true)
    (h2 : urlscheme s = "http" ∨ urlscheme s = "https") :
    (∀ msg, env.http s cfg.timeout cfg.verify = .error msg →
      resolveStr cfg env s = .error .TopologyRetrievalError) ∧
    (∀ r, env.http s cfg.timeout cfg.verify = .ok r → r.status_code ≠ 200 →
      resolveStr cfg env s = .error .TopologyRetrievalError) ∧
    (∀ r, env.http s cfg.timeout cfg.verify = .ok r → r.status_code = 200 →
      resolveStr cfg env s = .ok (some r.content)) := by
  have hs : urlscheme s ≠ "telnet" := by
    rcases h2 with h | h <;> simp [h]
  refine ⟨?_, ?_, ?_⟩
  · intro msg hmsg
    rcases h2 with h | h <;>
      simp [resolveStr, h1, h, hs, get_http, hmsg]
  · intro r hr hstatus
    rcases h2 with h | h <;>
      simp [resolveStr, h1, h, hs, get_http, hr, hstatus]
  · intro r hr hstatus
    rcases h2 with h | h <;>
      simp [resolveStr, h1, h, hs, get_http, hr, hstatus]

/-- Claim C5 witness: a mocked 404 response on a concrete http URL fails
with `TopologyRetrievalError`. -/
theorem C5_http_fetch_witness :
    resolveStr cfgOlsr env404 "http://localhost:9090" =
      .error .TopologyRetrievalError :=
  (C5_http_fetch cfgOlsr env404 "http://localhost:9090" (by decide)
      (Or.inl (by decide))).2.1 ⟨404, "not found"⟩ rfl (by decide)

/-- Claim C9 counterexample: the claim quantifies over all string override
values including the empty string, but `__init__` tests the override with
Python truthiness (`if metric:`), so an empty-string `metric` override
leaves the class-level default in place instead of replacing it. -/
theorem C9_empty_override_counterexample :
    (initConfig ⟨some "olsr", some "0.6.6", none, some "etx"⟩ none none
        (some "") none true).metric = some "etx" ∧
    ("" : String) ≠ "etx" := by
  decide

/-- Claim C9 as amended: a supplied non-empty override for `version`,
`revision` or `metric` replaces the class default, while an omitted (`None`)
or empty-string override leaves the default in place; `protocol` always
keeps its class default. -/
theorem C9_overrides (defaults : ParserDefaults)
    (version revision metric : Option String) (timeout : Option Nat)
    (verify : Bool) :
    (∀ v, version = some v → v ≠ "" →
      (initConfig defaults version revision metric timeout verify).version = some v) ∧
    (version = none ∨ version = some "" →
      (initConfig defaults version revision metric timeout verify).version =
        defaults.version) ∧
    (∀ v, revision = some v → v ≠ "" →
      (initConfig defaults version revision metric timeout verify).revision = some v) ∧
    (revision = none ∨ revision = some "" →
      (initConfig defaults version revision metric timeout verify).revision =
        defaults.revision) ∧
    (∀ v, metric = some v → v ≠ "" →
      (initConfig defaults version revision metric timeout verify).metric = some v) ∧
    (metric = none ∨ metric = some "" →
      (initConfig defaults version revision metric timeout verify).metric =
        defaults.metric) ∧
    (initConfig defaults version revision metric timeout verify).protocol =
      defaults.protocol := by
  refine ⟨?_, ?_, ?_, ?_, ?_, ?_, rfl⟩
  · intro v hv hne
    subst hv
    simp [initConfig, truthy, hne]
  · rintro (h | h) <;> subst h <;> simp [initConfig, truthy]
  · intro v hv hne
    subst hv
    simp [initConfig, truthy, hne]
  · rintro (h | h) <;> subst h <;> simp [initConfig, truthy]
  · intro v hv hne
    subst hv
    simp [initConfig, truthy, hne]
  · rintro (h | h) <;> subst h <;> simp [initConfig, truthy]

/-- Claim C9 witness: with OLSR-style defaults, a non-empty `version`
override replaces the default while an empty `metric` override keeps it. -/
theorem C9_overrides_witness :
    (initConfig ⟨some "olsr", some "0.6.6", none, some "etx"⟩ (some "0.9") none
        (some "") none true).version = some "0.9" ∧
    (initConfig ⟨some "olsr", some "0.6.6", none, some "etx"⟩ (some "0.9") none
        (some "") none true).metric = some "etx" :=
  ⟨(C9_overrides ⟨some "olsr", some "0.6.6", none, some "etx"⟩ (some "0.9") none
      (some "") none true).1 "0.9" rfl (by decide),
   (C9_overrides ⟨some "olsr", some "0.6.6", none, some "etx"⟩ (some "0.9") none
      (some "") none true).2.2.2.2.2.1 (Or.inr rfl)⟩

/-- Claim C1: serialization's metadata check fails with `NetJsonError` (the
spec's `SchemaValidationError`) when `metric` is `None` and the protocol is
not `static`, passes when the protocol is `static` even with `metric`
absent (version present), and likewise fails when `protocol` or `version`
is `None`. -/
theorem C1_metadata_check (cfg : ParserConfig) (graph : Graph) (asDict : Bool) :
    (cfg.metric = none → cfg.protocol ≠ some "static" →
      ∃ msg, BaseParser.json cfg graph asDict = .error (.NetJsonError msg)) ∧
    (cfg.protocol = some "static" → cfg.version ≠ none →
      ∃ out, BaseParser.json cfg graph asDict = .ok out) ∧
    (cfg.protocol = none →
      BaseParser.json cfg graph asDict = .error (.NetJsonError "protocol cannot be None")) ∧
    (cfg.protocol ≠ none → cfg.version = none →
      BaseParser.json cfg graph asDict = .error (.NetJsonError "version cannot be None")) := by
  refine ⟨?_, ?_, ?_, ?_⟩
  · intro hmetric hproto
    rcases hp : cfg.protocol with _ | p
    · exact ⟨"protocol cannot be None", by simp [BaseParser.json, hp]⟩
    · rcases hv : cfg.version with _ | v
      · exact ⟨"version cannot be None", by simp [BaseParser.json, hp, hv]⟩
      · refine ⟨"metric cannot be None", ?_⟩
        have hps : p ≠ "static" := by
          intro h
          exact hproto (by simp [hp, h])
        simp [BaseParser.json, hp, hv, hmetric, hps]
  · intro hproto hversion
    rcases hv : cfg.version with _ | v
    · exact absurd hv hversion
    · simp only [BaseParser.json, hproto, hv, reduceCtorEq, if_false, Bool.false_eq_true,
        ne_eq, not_true_eq_false, decide_False, Bool.and_false]
      split <;> exact ⟨_, rfl⟩
  · intro hp
    simp [BaseParser.json, hp]
  · intro hp hv
    rcases hproto : cfg.protocol with _ | p
    · exact absurd hproto hp
    · simp [BaseParser.json, hproto, hv]

/-- Claim C1 witness: with `metric` absent the OLSR configuration is
rejected and the static configuration is accepted on a concrete graph. -/
theorem C1_metadata_check_witness :
    (∃ msg, BaseParser.json cfgOlsrNoMetric g0 true = .error (.NetJsonError msg)) ∧
    (∃ out, BaseParser.json cfgStaticNoMetric g0 true = .ok out) :=
  ⟨(C1_metadata_check cfgOlsrNoMetric g0 true).1 rfl (by decide),
   (C1_metadata_check cfgStaticNoMetric g0 true).2.1 rfl (by decide)⟩

/-- Claim C7: a document that passes the metadata check has its fields in
exactly the fixed order `type`, `protocol`, `version`, `revision`, `metric`,
`nodes`, `links`, the `type` field holds the constant `NetworkGraph`, and
every entry of the link list carries exactly `source`, `target`, `weight` in
that order. -/
theorem C7_field_order (cfg : ParserConfig) (g : Graph) (fs : List (String × Json))
    (h : BaseParser.json cfg g true = .ok (.dict (.obj fs))) :
    fs.map Prod.fst =
      ["type", "protocol", "version", "revision", "metric", "nodes", "links"] ∧
    (fs.map Prod.snd).head? = some (.str "NetworkGraph") ∧
    (∃ links, (fs.map Prod.snd)[6]? = some (.arr links) ∧
      ∀ l ∈ links, ∃ src tgt w,
        l = .obj [("source", .str src), ("target", .str tgt), ("weight", .num w)]) := by
  unfold BaseParser.json at h
  split at h
  · exact absurd h (by simp)
  split at h
  · exact absurd h (by simp)
  split at h
  · exact absurd h (by simp)
  simp only [if_true, Except.ok.injEq, JsonOut.dict.injEq, Json.obj.injEq] at h
  subst h
  refine ⟨by simp, by simp, ?_⟩
  refine ⟨_, rfl, ?_⟩
  intro l hl
  rcases List.mem_map.mp hl with ⟨e, _, rfl⟩
  exact ⟨e.1, e.2.1, toString e.2.2, rfl⟩

/-- The document fields `BaseParser.json` produces for `cfgOlsr` and `g0`. -/
def cfgOlsrFields : List (String × Json) :=
  [("type", .str "NetworkGraph"),
   ("protocol", .str "olsr"),
   ("version", .str "0.6.6"),
   ("revision", .null),
   ("metric", .str "etx"),
   ("nodes", .arr [.obj [("id", .str "A")], .obj [("id", .str "B")]]),
   ("links", .arr [.obj [("source", .str "A"), ("target", .str "B"),
                         ("weight", .num "5")]])]

/-- Claim C7 witness: the concrete graph `g0` with full OLSR metadata. -/
theorem C7_field_order_witness :
    (cfgOlsrFields.map Prod.fst =
      ["type", "protocol", "version", "revision", "metric", "nodes", "links"]) ∧
    (cfgOlsrFields.map Prod.snd).head? = some (.str "NetworkGraph") ∧
    (∃ links, (cfgOlsrFields.map Prod.snd)[6]? = some (.arr links) ∧
      ∀ l ∈ links, ∃ src tgt w,
        l = .obj [("source", .str src), ("target", .str tgt), ("weight", .num w)]) :=
  C7_field_order cfgOlsr g0 cfgOlsrFields rfl

/-- Claim C8: whenever the metadata check passes, the text form returned
with `dict=False` is exactly the `json.dumps` rendering of the document
returned with `dict=True` — both come from the same `OrderedDict` with no
further transformation. -/
theorem C8_text_is_dumps_of_dict (cfg : ParserConfig) (g : Graph) (d : Json)
    (h : BaseParser.json cfg g true = .ok (.dict d)) :
    BaseParser.json cfg g false = .ok (.text (dumps d)) := by
  unfold BaseParser.json at h ⊢
  split at h
  · exact absurd h (by simp)
  rename_i h1
  split at h
  · exact absurd h (by simp)
  rename_i h2
  split at h
  · exact absurd h (by simp)
  rename_i h3
  rw [if_neg h1, if_neg h2, if_neg h3]
  simp only [if_true, Except.ok.injEq, JsonOut.dict.injEq] at h
  subst h
  simp

/-- Claim C8 witness: on the concrete graph `g0` the text form is the dump
of the structured form. -/
theorem C8_text_is_dumps_of_dict_witness :
    BaseParser.json cfgOlsr g0 false = .ok (.text (dumps (.obj cfgOlsrFields))) :=
  C8_text_is_dumps_of_dict cfgOlsr g0 (.obj cfgOlsrFields) rfl

/-- Looking up a link of a list with pairwise-distinct endpoint pairs finds
exactly that link's weight. -/
theorem lookupEdge_of_mem {edges : List (String × String × Int)}
    (hu : edges.Pairwise (fun e f => (e.1, e.2.1) ≠ (f.1, f.2.1)))
    {e : String × String × Int} (he : e ∈ edges) :
    lookupEdge edges e.1 e.2.1 = some e.2.2 := by
  induction edges with
  | nil => cases he
  | cons a rest ih =>
    rcases List.mem_cons.mp he with rfl | hmem
    · simp [lookupEdge]
    · have hne : (a.1, a.2.1) ≠ (e.1, e.2.1) := (List.pairwise_cons.mp hu).1 e hmem
      have hcond : ¬(a.1 = e.1 ∧ a.2.1 = e.2.1) := by
        rintro ⟨hx, hy⟩
        exact hne (by rw [hx, hy])
      rw [lookupEdge]
      rw [if_neg (by simpa using hcond)]
      exact ih (List.pairwise_cons.mp hu).2 hmem

/-- Claim C2: diffing a graph against itself (equivalently, evaluating
`A - A` through `__sub__`) yields a delta whose added and removed node and
link sets are all empty, for every graph with at most one link per ordered
endpoint pair. -/
theorem C2_diff_self (A : Graph) (h : A.uniquePairs) :
    diff A A = ⟨[], [], [], []⟩ ∧ BaseParser.sub A A = ⟨[], [], [], []⟩ := by
  have hnodes : A.nodes.filter (fun n => ¬ A.nodes.contains n) = [] :=
    List.filter_eq_nil_iff.mpr (fun a ha => by simp [List.elem_iff, ha])
  have hlinks :
      A.edges.filter (fun e => lookupEdge A.edges e.1 e.2.1 ≠ some e.2.2) = [] :=
    List.filter_eq_nil_iff.mpr (fun e he => by simp [lookupEdge_of_mem h he])
  have hd : diff A A = ⟨[], [], [], []⟩ := by
    unfold diff
    rw [hnodes, hlinks]
  exact ⟨hd, hd⟩

/-- Claim C2 witness: the concrete graph `g0` diffed against itself. -/
theorem C2_diff_self_witness :
    diff g0 g0 = ⟨[], [], [], []⟩ ∧ BaseParser.sub g0 g0 = ⟨[], [], [], []⟩ :=
  C2_diff_self g0 (by simp [Graph.uniquePairs, g0])

end Netdiff
